import Mathlib

/-!
# Verification of the posting gate and automation loop of catzuko-clipz

Shallow embedding of `SafeAutoPoster` (src/auto_poster.py) and
`ContentAutomationSystem.hourly_posting` (src/automation_system.py).

Python dicts are modelled as insertion-ordered association lists over
`String` keys (`lookupKey` mirrors `k in d` / `d[k]`, `setKey` mirrors
`d[k] = v`).  `datetime.now().date().isoformat()` is modelled as an explicit
`today : String` argument, held constant within one call.  `random` choices
and platform poster outcomes are explicit parameters.  Observable side
effects (the pre-post sleep, invoking a platform poster, recording a post)
are collected in an event trace.
-/

/-- Python `d[k] = v` on an insertion-ordered dict: replace the value if the
key is present, otherwise append the binding at the end. -/
def setKey {α : Type} (k : String) (v : α) : List (String × α) → List (String × α)
  | [] => [(k, v)]
  | (k', v') :: rest => if k' = k then (k, v) :: rest else (k', v') :: setKey k v rest

/-- Python `d[k]` / `k in d` on an association list. -/
def lookupKey {α : Type} (k : String) : List (String × α) → Option α
  | [] => none
  | (k', v) :: rest => if k' = k then some v else lookupKey k rest

/-- Inner dict of `post_history`: ISO date string ↦ number of successful posts. -/
abbrev DateCounts := List (String × Nat)

/-- `post_history`: account id ↦ (date ↦ count), as loaded from
`post_history.json`. -/
abbrev History := List (String × DateCounts)

/-- The effective count for `(account_id, date)`: a missing account or a
missing date reads as 0 (this is the semantics the code's
default-inserting reads give to absent keys). -/
def countOf (h : History) (account_id date : String) : Nat :=
  ((lookupKey date ((lookupKey account_id h).getD [])).getD 0)

/-- `SafeAutoPoster.max_posts_per_day`, set to 5 in `__init__`. -/
def max_posts_per_day : Nat := 5

/-- State of a `SafeAutoPoster`: the in-memory `self.post_history` dict and
the persisted content of `post_history.json` (written by `_save_history`). -/
structure PosterState where
  post_history : History
  history_file : History
deriving DecidableEq, Repr

/-- `SafeAutoPoster.should_post` (src/auto_poster.py:459-469).  Inserts a
default `{}` / `0` entry for a missing account or date (mirroring the
Python `if ... not in ...:` assignments, which mutate `self.post_history`),
then compares today's count against `max_posts_per_day`.  Returns the
boolean result together with the (possibly mutated) state; the history
file is not written. -/
def should_post (s : PosterState) (today account_id : String) :
    Bool × PosterState :=
  let h1 := if (lookupKey account_id s.post_history).isNone
            then setKey account_id [] s.post_history
            else s.post_history
  let dc := (lookupKey account_id h1).getD []
  let h2 := if (lookupKey today dc).isNone
            then setKey account_id (setKey today 0 dc) h1
            else h1
  let cnt := (lookupKey today ((lookupKey account_id h2).getD [])).getD 0
  (cnt < max_posts_per_day, { s with post_history := h2 })

/-- `SafeAutoPoster.record_post` (src/auto_poster.py:471-482): insert default
entries if missing, increment today's counter by one, and persist the whole
history document via `_save_history` (src/auto_poster.py:454-457). -/
def record_post (s : PosterState) (today account_id : String) : PosterState :=
  let h1 := if (lookupKey account_id s.post_history).isNone
            then setKey account_id [] s.post_history
            else s.post_history
  let dc := (lookupKey account_id h1).getD []
  let dc1 := if (lookupKey today dc).isNone then setKey today 0 dc else dc
  let dc2 := setKey today (((lookupKey today dc1).getD 0) + 1) dc1
  let h2 := setKey account_id dc2 h1
  { post_history := h2, history_file := h2 }

/-- `record_post` applied `n` times for the same account on the same date. -/
def recordN (n : Nat) (s : PosterState) (today account_id : String) : PosterState :=
  match n with
  | 0 => s
  | n + 1 => record_post (recordN n s today account_id) today account_id

-- ### Association-list lemmas

theorem lookupKey_setKey_self {α : Type} (k : String) (v : α)
    (l : List (String × α)) : lookupKey k (setKey k v l) = some v := by
  induction l with
  | nil => simp [setKey, lookupKey]
  | cons p rest ih =>
    obtain ⟨k', v'⟩ := p
    by_cases hk : k' = k
    · simp [setKey, lookupKey, hk]
    · simp [setKey, lookupKey, hk, ih]

theorem lookupKey_setKey_ne {α : Type} {k k' : String} (hne : k' ≠ k) (v : α)
    (l : List (String × α)) : lookupKey k (setKey k' v l) = lookupKey k l := by
  induction l with
  | nil => simp [setKey, lookupKey, hne]
  | cons p rest ih =>
    obtain ⟨k₀, v₀⟩ := p
    by_cases hk : k₀ = k'
    · subst hk
      simp [setKey, lookupKey, hne]
    · simp [setKey, lookupKey, hk, ih]

-- ### Effective-count lemmas about `should_post` and `record_post`

/-- Normalising an inner dict by inserting an explicit 0 for a missing date
does not change any effective count. -/
theorem lookupKey_norm_getD (today d : String) (dc : DateCounts) :
    (lookupKey d (if (lookupKey today dc).isNone then setKey today 0 dc else dc)).getD 0
      = (lookupKey d dc).getD 0 := by
  by_cases hmem : (lookupKey today dc).isNone
  · by_cases hd : d = today
    · subst hd
      simp only [hmem, if_pos, lookupKey_setKey_self]
      simp only [Option.isNone_iff_eq_none] at hmem
      simp [hmem]
    · have : today ≠ d := fun h => hd h.symm
      simp [hmem, lookupKey_setKey_ne this]
  · simp [hmem]

/-- `should_post` never changes any effective `(account, date)` count. -/
theorem countOf_should_post (s : PosterState) (today account_id a d : String) :
    countOf (should_post s today account_id).2.post_history a d
      = countOf s.post_history a d := by
  unfold should_post countOf
  by_cases hacc : a = account_id
  · subst hacc
    by_cases h1 : (lookupKey a s.post_history).isNone
    · simp only [h1, if_pos, lookupKey_setKey_self]
      simp only [Option.isNone_iff_eq_none] at h1
      simp only [h1, Option.getD_none, Option.getD_some]
      by_cases h2 : (lookupKey today ([] : DateCounts)).isNone
      · simp only [h2, if_pos, lookupKey_setKey_self]
        have := lookupKey_norm_getD today d ([] : DateCounts)
        simp only [h2, if_pos] at this
        simp [this]
      · simp [lookupKey] at h2
    · simp only [h1, if_neg, Bool.not_eq_true]
      simp only [Option.isNone_iff_eq_none] at h1
      obtain ⟨dc, hdc⟩ := Option.ne_none_iff_exists'.mp h1
      simp only [hdc, Option.getD_some]
      by_cases h2 : (lookupKey today dc).isNone
      · simp only [h2, if_pos, lookupKey_setKey_self, hdc, Option.getD_some]
        have := lookupKey_norm_getD today d dc
        simp only [h2, if_pos] at this
        simp [this]
      · simp [h2, hdc]
  · have hne : account_id ≠ a := fun h => hacc h.symm
    by_cases h1 : (lookupKey account_id s.post_history).isNone
    · simp only [h1, if_pos]
      by_cases h2 : (lookupKey today ((lookupKey account_id
          (setKey account_id [] s.post_history)).getD [])).isNone
      · simp [h2, lookupKey_setKey_ne hne]
      · simp [h2, lookupKey_setKey_ne hne]
    · simp only [h1, if_neg, Bool.not_eq_true]
      by_cases h2 : (lookupKey today ((lookupKey account_id s.post_history).getD [])).isNone
      · simp [h2, lookupKey_setKey_ne hne]
      · simp [h2]

/-- `should_post` never writes the history file. -/
theorem should_post_file (s : PosterState) (today account_id : String) :
    (should_post s today account_id).2.history_file = s.history_file := by
  unfold should_post
  by_cases h1 : (lookupKey account_id s.post_history).isNone <;>
    by_cases h2 : True <;> simp [h1]

/-- The boolean returned by `should_post` compares the effective count
(absent keys read as zero) against the daily maximum. -/
theorem should_post_fst (s : PosterState) (today account_id : String) :
    (should_post s today account_id).1
      = decide (countOf s.post_history account_id today < max_posts_per_day) := by
  unfold should_post countOf
  by_cases h1 : (lookupKey account_id s.post_history).isNone
  · simp only [h1, if_pos, lookupKey_setKey_self]
    simp only [Option.isNone_iff_eq_none] at h1
    simp only [h1, Option.getD_none, Option.getD_some]
    by_cases h2 : (lookupKey today ([] : DateCounts)).isNone
    · simp only [h2, if_pos, lookupKey_setKey_self]
      have := lookupKey_norm_getD today today ([] : DateCounts)
      simp only [h2, if_pos] at this
      simp [this]
    · simp [lookupKey] at h2
  · simp only [h1, if_neg, Bool.not_eq_true]
    simp only [Option.isNone_iff_eq_none] at h1
    obtain ⟨dc, hdc⟩ := Option.ne_none_iff_exists'.mp h1
    simp only [hdc, Option.getD_some]
    by_cases h2 : (lookupKey today dc).isNone
    · simp only [h2, if_pos, lookupKey_setKey_self, hdc, Option.getD_some]
      simp only [Option.isNone_iff_eq_none] at h2
      simp [h2]
    · simp [h2, hdc]

/-- `record_post` increments the effective count for the recorded account
and date by exactly one. -/
theorem countOf_record_post_self (s : PosterState) (today account_id : String) :
    countOf (record_post s today account_id).post_history account_id today
      = countOf s.post_history account_id today + 1 := by
  unfold record_post countOf
  by_cases h1 : (lookupKey account_id s.post_history).isNone
  · simp only [h1, if_pos, lookupKey_setKey_self]
    simp only [Option.isNone_iff_eq_none] at h1
    simp [h1, lookupKey, lookupKey_setKey_self]
  · simp only [h1, if_neg, Bool.not_eq_true]
    simp only [Option.isNone_iff_eq_none] at h1
    obtain ⟨dc, hdc⟩ := Option.ne_none_iff_exists'.mp h1
    simp only [hdc, Option.getD_some, lookupKey_setKey_self]
    have hn := lookupKey_norm_getD today today dc
    simp only [Option.isNone_iff_eq_none] at hn
    simp [hn]

/-- `record_post` leaves the effective count of every other
`(account, date)` pair unchanged. -/
theorem countOf_record_post_other (s : PosterState) (today account_id a d : String)
    (hne : a ≠ account_id ∨ d ≠ today) :
    countOf (record_post s today account_id).post_history a d
      = countOf s.post_history a d := by
  unfold record_post countOf
  by_cases hacc : a = account_id
  · subst hacc
    have hdne : d ≠ today := hne.resolve_left (by simp)
    have hdne' : today ≠ d := fun h => hdne h.symm
    by_cases h1 : (lookupKey a s.post_history).isNone
    · simp only [h1, if_pos, lookupKey_setKey_self]
      simp only [Option.isNone_iff_eq_none] at h1
      simp [h1, lookupKey_setKey_ne hdne', lookupKey, hdne']
    · simp only [h1, if_neg, Bool.not_eq_true]
      simp only [Option.isNone_iff_eq_none] at h1
      obtain ⟨dc, hdc⟩ := Option.ne_none_iff_exists'.mp h1
      simp only [hdc, Option.getD_some, lookupKey_setKey_self]
      rw [lookupKey_setKey_ne hdne']
      by_cases h2 : (lookupKey today dc).isNone
      · simp [h2, lookupKey_setKey_ne hdne']
      · simp [h2]
  · have hne' : account_id ≠ a := fun h => hacc h.symm
    by_cases h1 : (lookupKey account_id s.post_history).isNone
    · simp [h1, lookupKey_setKey_ne hne']
    · simp [h1, lookupKey_setKey_ne hne']

/-- `record_post` persists the full in-memory document to the history file. -/
theorem record_post_persists (s : PosterState) (today account_id : String) :
    (record_post s today account_id).history_file
      = (record_post s today account_id).post_history := rfl

-- ### `post_with_safety`

/-- Observable side effects of one `post_with_safety` call, in order:
the random pre-post sleep, the invocation of a platform poster, and the
recording of a successful post. -/
inductive Event where
  | delay : Event
  | posterInvoked (platform : String) : Event
  | recorded (account_id : String) : Event
deriving DecidableEq, Repr

/-- `SafeAutoPoster.post_with_safety` (src/auto_poster.py:484-538).
`account_id` is `"{platform}_{username}"`; the daily-limit gate runs first
and returns `false` with no further effect when it fails; otherwise the
random 15-180 minute sleep happens, then the platform dispatch
(`tiktok` / `instagram` / `youtube`, anything else prints and returns
`false`).  The outcome of the invoked poster method is the parameter
`posterResult` (`Except.error` models a raised exception, caught by the
surrounding `try`).  Returns the boolean result, the final state, and the
event trace. -/
def post_with_safety (s : PosterState) (today platform username : String)
    (posterResult : Except Unit Bool) : Bool × PosterState × List Event :=
  let account_id := platform ++ "_" ++ username
  let checked := should_post s today account_id
  if checked.1 = false then
    (false, checked.2, [])
  else
    let ev0 : List Event := [Event.delay]
    if platform = "tiktok" ∨ platform = "instagram" ∨ platform = "youtube" then
      match posterResult with
      | Except.ok true =>
          let s2 := record_post checked.2 today account_id
          (true, s2, ev0 ++ [Event.posterInvoked platform, Event.recorded account_id])
      | Except.ok false =>
          (false, checked.2, ev0 ++ [Event.posterInvoked platform])
      | Except.error _ =>
          (false, checked.2, ev0 ++ [Event.posterInvoked platform])
    else
      (false, checked.2, ev0)

/-- One `post_with_safety` call as seen by a caller: the date current during
the call, the platform, the account username, and the poster outcome. -/
structure Call where
  today : String
  platform : String
  username : String
  posterResult : Except Unit Bool

/-- A sequence of sequential `post_with_safety` calls, threading the
`SafeAutoPoster` state. -/
def runCalls (s : PosterState) : List Call → PosterState
  | [] => s
  | c :: cs =>
      runCalls (post_with_safety s c.today c.platform c.username c.posterResult).2.1 cs

-- ### `ContentAutomationSystem.hourly_posting`

/-- A clip-queue entry as produced by `daily_content_generation` and read by
`hourly_posting`.  `platform` is optional because `hourly_posting` reads it
with `clip.get('platform', 'tiktok')`. -/
structure Clip where
  video_path : String
  caption : String
  platform : Option String
  added_at : String
deriving DecidableEq, Repr

/-- `clip.get('platform', 'tiktok')` (src/automation_system.py:162). -/
def Clip.getPlatform (c : Clip) : String := c.platform.getD "tiktok"

/-- One entry of `accounts.json`: a username and a cookies-file path. -/
structure Account where
  username : String
  cookies_file : String
deriving DecidableEq, Repr

/-- State of a `ContentAutomationSystem`: the in-memory clips queue, the
persisted content of `clips_queue.json` (written by `_save_clips_queue`),
and the embedded `SafeAutoPoster`. -/
structure SysState where
  clips_queue : List Clip
  queue_file : List Clip
  poster : PosterState
deriving DecidableEq, Repr

/-- The environment one `hourly_posting` cycle runs in: file existence (for
video and cookies paths), the accounts configured per platform (`[]` models
both a missing key and an empty list in `accounts.json`), the index the
`random.choice` call picks, the current date, and the platform poster
outcome. -/
structure HourlyEnv where
  fileExists : String → Bool
  accounts : String → List Account
  chooseIdx : Nat
  today : String
  posterResult : Except Unit Bool

/-- `random.choice(self.accounts[platform])` (src/automation_system.py:176),
with the random draw modelled as an index reduced modulo the list length;
on the empty list (never reached behind the emptiness guard) it returns a
dummy account. -/
def chooseAccount (idx : Nat) (accs : List Account) : Account :=
  accs.getD (idx % accs.length) ⟨"", ""⟩

/-- Result of one `hourly_posting` cycle: the new system state, whether
`post_with_safety` was invoked at all, and its event trace (empty when it
was not invoked). -/
structure HourlyResult where
  state : SysState
  attempted : Bool
  events : List Event
deriving Repr

/-- `ContentAutomationSystem.hourly_posting` (src/automation_system.py:141-205),
with auto-posting enabled.  Empty queue: return without saving.  Otherwise
pop the head; if its video file is gone, drop it and persist; if its
platform has no accounts configured, or the chosen account's cookies file
is missing, re-append it and persist; otherwise delegate to
`post_with_safety` and re-append the clip exactly when that returns false,
persisting the queue either way. -/
def hourly_posting (env : HourlyEnv) (s : SysState) : HourlyResult :=
  match s.clips_queue with
  | [] => ⟨s, false, []⟩
  | clip :: rest =>
    if env.fileExists clip.video_path = false then
      ⟨⟨rest, rest, s.poster⟩, false, []⟩
    else if env.accounts clip.getPlatform = [] then
      ⟨⟨rest ++ [clip], rest ++ [clip], s.poster⟩, false, []⟩
    else
      let account := chooseAccount env.chooseIdx (env.accounts clip.getPlatform)
      if env.fileExists account.cookies_file = false then
        ⟨⟨rest ++ [clip], rest ++ [clip], s.poster⟩, false, []⟩
      else
        let r := post_with_safety s.poster env.today clip.getPlatform
                   account.username env.posterResult
        let q := if r.1 then rest else rest ++ [clip]
        ⟨⟨q, q, r.2.1⟩, true, r.2.2⟩

-- ### Supporting lemmas for the claims

/-- Recording `n` posts for the same account and date adds `n` to that
effective count. -/
theorem countOf_recordN (n : Nat) (s : PosterState) (today acct : String) :
    countOf (recordN n s today acct).post_history acct today
      = countOf s.post_history acct today + n := by
  induction n with
  | zero => rfl
  | succ n ih =>
      show countOf (record_post (recordN n s today acct) today acct).post_history acct today = _
      rw [countOf_record_post_self, ih]
      omega

/-- One `post_with_safety` call preserves the daily cap on every effective
count. -/
theorem post_with_safety_preserves_cap (s : PosterState)
    (today platform username : String) (r : Except Unit Bool)
    (hinv : ∀ a d, countOf s.post_history a d ≤ max_posts_per_day) :
    ∀ a d, countOf (post_with_safety s today platform username r).2.1.post_history a d
        ≤ max_posts_per_day := by
  intro a d
  unfold post_with_safety
  by_cases hc : (should_post s today (platform ++ "_" ++ username)).1 = false
  · simp [hc, countOf_should_post, hinv a d]
  · have hc' : (should_post s today (platform ++ "_" ++ username)).1 = true := by
      revert hc; cases (should_post s today (platform ++ "_" ++ username)).1 <;> simp
    have hcnt : countOf s.post_history (platform ++ "_" ++ username) today
        < max_posts_per_day := by
      rw [should_post_fst] at hc'
      exact of_decide_eq_true hc'
    by_cases hp : platform = "tiktok" ∨ platform = "instagram" ∨ platform = "youtube"
    · match r with
      | Except.ok true =>
          by_cases hkey : a = platform ++ "_" ++ username ∧ d = today
          · obtain ⟨ha, hd⟩ := hkey
            subst ha; subst hd
            simp [hc, hp, countOf_record_post_self, countOf_should_post]
            omega
          · simp [hc, hp, countOf_record_post_other _ _ _ _ _ (by tauto),
              countOf_should_post, hinv a d]
      | Except.ok false => simp [hc, hp, countOf_should_post, hinv a d]
      | Except.error e => simp [hc, hp, countOf_should_post, hinv a d]
    · simp [hc, hp, countOf_should_post, hinv a d]

-- ### Claims

/-- C1: `should_post account_id` returns true iff the count of successful
posts recorded for the account on the current date is strictly less than
`max_posts_per_day` (5); absence of any record reads as zero, so an
account with no prior history on a new date gets true; and after
`record_post` has run `N` times on the same date starting from no record,
`should_post` returns true exactly for `N < 5`. -/
theorem C1_daily_limit_gate :
    (∀ (s : PosterState) (today acct : String),
        ((should_post s today acct).1 = true ↔
          countOf s.post_history acct today < max_posts_per_day))
    ∧ (∀ (s : PosterState) (today acct : String),
        countOf s.post_history acct today = 0 →
        (should_post s today acct).1 = true)
    ∧ (∀ (s : PosterState) (today acct : String) (N : Nat),
        countOf s.post_history acct today = 0 →
        ((should_post (recordN N s today acct) today acct).1 = true ↔ N < 5)) := by
  refine ⟨fun s today acct => ?_, fun s today acct h0 => ?_, fun s today acct N h0 => ?_⟩
  · rw [should_post_fst]
    exact decide_eq_true_iff
  · rw [should_post_fst, h0]
    simp [max_posts_per_day]
  · rw [should_post_fst, countOf_recordN, h0]
    simp [max_posts_per_day]

/-- C1 witness: with no prior history, after five `record_post` calls on the
same date `should_post` is no longer true. -/
theorem C1_daily_limit_gate_witness :
    (should_post (recordN 5 ⟨[], []⟩ "2026-01-01" "tiktok_acct1")
        "2026-01-01" "tiktok_acct1").1 = true ↔ (5 : Nat) < 5 :=
  C1_daily_limit_gate.2.2 ⟨[], []⟩ "2026-01-01" "tiktok_acct1" 5 (by decide)

/-- C2 counterexample: `should_post` is not a pure read of the in-memory
mapping.  On an empty history it inserts an explicit zero entry for the
queried account and date, so the mapping differs before and after. -/
theorem C2_pure_read_counterexample :
    ¬ ((should_post ⟨[], []⟩ "2026-10-12" "tiktok_acct1").2.post_history
        = (PosterState.mk [] []).post_history) := by
  decide

/-- C2 (amended): `should_post` never writes `post_history.json` and never
changes any effective `(account, date)` count, but it is not a pure read of
the in-memory mapping: when the queried account or the current date is
absent it inserts explicit zero-valued entries into `self.post_history`. -/
theorem C2_should_post_frame (s : PosterState) (today acct : String) :
    (should_post s today acct).2.history_file = s.history_file
    ∧ ∀ a d, countOf (should_post s today acct).2.post_history a d
        = countOf s.post_history a d :=
  ⟨should_post_file s today acct, fun a d => countOf_should_post s today acct a d⟩

/-- C3: when the daily-limit gate fails for `"{platform}_{username}"`,
`post_with_safety` returns false immediately: no random delay is performed
and no platform poster is invoked (the event trace is empty). -/
theorem C3_gate_blocks_immediately (s : PosterState)
    (today platform username : String) (r : Except Unit Bool)
    (h : (should_post s today (platform ++ "_" ++ username)).1 = false) :
    (post_with_safety s today platform username r).1 = false
    ∧ (post_with_safety s today platform username r).2.2 = [] := by
  unfold post_with_safety
  simp [h]

/-- C3 witness: an account with five successes recorded today is blocked
with an empty event trace. -/
theorem C3_gate_blocks_immediately_witness :
    (post_with_safety ⟨[("tiktok_acct1", [("2026-01-01", 5)])], []⟩
        "2026-01-01" "tiktok" "acct1" (Except.ok true)).1 = false
    ∧ (post_with_safety ⟨[("tiktok_acct1", [("2026-01-01", 5)])], []⟩
        "2026-01-01" "tiktok" "acct1" (Except.ok true)).2.2 = [] :=
  C3_gate_blocks_immediately ⟨[("tiktok_acct1", [("2026-01-01", 5)])], []⟩
    "2026-01-01" "tiktok" "acct1" (Except.ok true) (by decide)

/-- C4: past the quota check, a poster returning true leads to the post
being recorded and `post_with_safety` returning true, while a poster
returning false or raising leads to false with nothing recorded and no
effective count changed — failed attempts never consume quota. -/
theorem C4_record_only_on_success (s : PosterState)
    (today platform username : String) (r : Except Unit Bool)
    (hplat : platform = "tiktok" ∨ platform = "instagram" ∨ platform = "youtube")
    (hq : (should_post s today (platform ++ "_" ++ username)).1 = true) :
    (r = Except.ok true →
        (post_with_safety s today platform username r).1 = true
        ∧ Event.recorded (platform ++ "_" ++ username)
            ∈ (post_with_safety s today platform username r).2.2
        ∧ countOf (post_with_safety s today platform username r).2.1.post_history
            (platform ++ "_" ++ username) today
          = countOf s.post_history (platform ++ "_" ++ username) today + 1)
    ∧ (r ≠ Except.ok true →
        (post_with_safety s today platform username r).1 = false
        ∧ (∀ a, ¬ Event.recorded a ∈ (post_with_safety s today platform username r).2.2)
        ∧ ∀ a d, countOf (post_with_safety s today platform username r).2.1.post_history a d
            = countOf s.post_history a d) := by
  constructor
  · intro hr
    subst hr
    unfold post_with_safety
    simp [hq, hplat, countOf_record_post_self, countOf_should_post]
  · intro hr
    unfold post_with_safety
    match r with
    | Except.ok true => exact absurd rfl hr
    | Except.ok false => simp [hq, hplat, countOf_should_post]
    | Except.error e => simp [hq, hplat, countOf_should_post]

/-- C4 witness: on a fresh history a tiktok post whose poster succeeds is
recorded and returns true. -/
theorem C4_record_only_on_success_witness :
    (post_with_safety ⟨[], []⟩ "2026-01-01" "tiktok" "acct1" (Except.ok true)).1 = true
    ∧ Event.recorded ("tiktok" ++ "_" ++ "acct1")
        ∈ (post_with_safety ⟨[], []⟩ "2026-01-01" "tiktok" "acct1" (Except.ok true)).2.2
    ∧ countOf (post_with_safety ⟨[], []⟩ "2026-01-01" "tiktok" "acct1"
          (Except.ok true)).2.1.post_history ("tiktok" ++ "_" ++ "acct1") "2026-01-01"
      = countOf ([] : History) ("tiktok" ++ "_" ++ "acct1") "2026-01-01" + 1 :=
  (C4_record_only_on_success ⟨[], []⟩ "2026-01-01" "tiktok" "acct1" (Except.ok true)
    (Or.inl rfl) (by decide)).1 rfl

/-- C5: `record_post` increments the effective counter for
`(account_id, today)` by exactly one (a missing entry reads as zero), leaves
every other `(account, date)` counter unchanged, and persists the full
document to the history file. -/
theorem C5_record_post_increments_and_persists (s : PosterState)
    (today acct a d : String) (hne : a ≠ acct ∨ d ≠ today) :
    countOf (record_post s today acct).post_history acct today
      = countOf s.post_history acct today + 1
    ∧ countOf (record_post s today acct).post_history a d
      = countOf s.post_history a d
    ∧ (record_post s today acct).history_file
      = (record_post s today acct).post_history :=
  ⟨countOf_record_post_self s today acct,
   countOf_record_post_other s today acct a d hne, rfl⟩

/-- C5 witness: recording for one account leaves a different account's
count unchanged and persists. -/
theorem C5_record_post_increments_and_persists_witness :
    countOf (record_post ⟨[], []⟩ "2026-01-01" "tiktok_a").post_history
        "tiktok_a" "2026-01-01"
      = countOf ([] : History) "tiktok_a" "2026-01-01" + 1
    ∧ countOf (record_post ⟨[], []⟩ "2026-01-01" "tiktok_a").post_history
        "tiktok_b" "2026-01-01"
      = countOf ([] : History) "tiktok_b" "2026-01-01"
    ∧ (record_post ⟨[], []⟩ "2026-01-01" "tiktok_a").history_file
      = (record_post ⟨[], []⟩ "2026-01-01" "tiktok_a").post_history :=
  C5_record_post_increments_and_persists ⟨[], []⟩ "2026-01-01" "tiktok_a"
    "tiktok_b" "2026-01-01" (Or.inl (by decide))

/-- C9: starting from a history in which every effective `(account, date)`
count is at most `max_posts_per_day`, every sequence of sequential
`post_with_safety` calls keeps every count at most `max_posts_per_day`:
the gate before each attempt prevents the cap from being exceeded. -/
theorem C9_daily_cap_invariant (s : PosterState) (calls : List Call)
    (hinv : ∀ a d, countOf s.post_history a d ≤ max_posts_per_day) :
    ∀ a d, countOf (runCalls s calls).post_history a d ≤ max_posts_per_day := by
  induction calls generalizing s with
  | nil => exact hinv
  | cons c cs ih =>
      exact ih _ (post_with_safety_preserves_cap s c.today c.platform c.username
        c.posterResult hinv)

/-- C9 witness: from an empty history, after six successful-poster calls on
the same account and date the count is still at most the cap. -/
theorem C9_daily_cap_invariant_witness :
    countOf (runCalls ⟨[], []⟩
        (List.replicate 6 ⟨"2026-01-01", "tiktok", "acct1", Except.ok true⟩)).post_history
      "tiktok_acct1" "2026-01-01" ≤ max_posts_per_day :=
  C9_daily_cap_invariant ⟨[], []⟩
    (List.replicate 6 ⟨"2026-01-01", "tiktok", "acct1", Except.ok true⟩)
    (fun a d => by simp [countOf, lookupKey]) "tiktok_acct1" "2026-01-01"

/-- C10: for a platform other than tiktok, instagram and youtube, a call
that passes the quota check performs the random delay, invokes no platform
poster, records nothing, changes no effective count, and returns false. -/
theorem C10_unknown_platform_no_poster (s : PosterState)
    (today platform username : String) (r : Except Unit Bool)
    (hplat : ¬(platform = "tiktok" ∨ platform = "instagram" ∨ platform = "youtube"))
    (hq : (should_post s today (platform ++ "_" ++ username)).1 = true) :
    (post_with_safety s today platform username r).1 = false
    ∧ (post_with_safety s today platform username r).2.2 = [Event.delay]
    ∧ ∀ a d, countOf (post_with_safety s today platform username r).2.1.post_history a d
        = countOf s.post_history a d := by
  unfold post_with_safety
  simp [hq, hplat, countOf_should_post]

/-- C10 witness: platform "twitter" on a fresh history: delay only, result
false, counts unchanged. -/
theorem C10_unknown_platform_no_poster_witness :
    (post_with_safety ⟨[], []⟩ "2026-01-01" "twitter" "acct1" (Except.ok true)).1 = false
    ∧ (post_with_safety ⟨[], []⟩ "2026-01-01" "twitter" "acct1"
        (Except.ok true)).2.2 = [Event.delay]
    ∧ ∀ a d, countOf (post_with_safety ⟨[], []⟩ "2026-01-01" "twitter" "acct1"
          (Except.ok true)).2.1.post_history a d
        = countOf ([] : History) a d :=
  C10_unknown_platform_no_poster ⟨[], []⟩ "2026-01-01" "twitter" "acct1"
    (Except.ok true) (by decide) (by decide)

/-- C6: when the head clip's video file no longer exists, one posting cycle
drops that entry (the queue becomes exactly the remaining entries, in
order), persists the queue, performs no post attempt, and leaves the
poster state untouched. -/
theorem C6_missing_video_dropped (env : HourlyEnv) (poster0 : PosterState)
    (qfile : List Clip) (clip : Clip) (rest : List Clip)
    (hvid : env.fileExists clip.video_path = false) :
    (hourly_posting env ⟨clip :: rest, qfile, poster0⟩).state.clips_queue = rest
    ∧ (hourly_posting env ⟨clip :: rest, qfile, poster0⟩).state.queue_file = rest
    ∧ (hourly_posting env ⟨clip :: rest, qfile, poster0⟩).attempted = false
    ∧ (hourly_posting env ⟨clip :: rest, qfile, poster0⟩).events = []
    ∧ (hourly_posting env ⟨clip :: rest, qfile, poster0⟩).state.poster = poster0 := by
  simp [hourly_posting, hvid]

/-- C6 witness: a one-entry queue whose video is gone empties out with no
attempt. -/
theorem C6_missing_video_dropped_witness :
    (hourly_posting ⟨fun _ => false, fun _ => [], 0, "2026-01-01", Except.ok false⟩
        ⟨[⟨"/clips/a.mp4", "cap", some "tiktok", "t"⟩], [], ⟨[], []⟩⟩).state.clips_queue = []
    ∧ (hourly_posting ⟨fun _ => false, fun _ => [], 0, "2026-01-01", Except.ok false⟩
        ⟨[⟨"/clips/a.mp4", "cap", some "tiktok", "t"⟩], [], ⟨[], []⟩⟩).state.queue_file = []
    ∧ (hourly_posting ⟨fun _ => false, fun _ => [], 0, "2026-01-01", Except.ok false⟩
        ⟨[⟨"/clips/a.mp4", "cap", some "tiktok", "t"⟩], [], ⟨[], []⟩⟩).attempted = false
    ∧ (hourly_posting ⟨fun _ => false, fun _ => [], 0, "2026-01-01", Except.ok false⟩
        ⟨[⟨"/clips/a.mp4", "cap", some "tiktok", "t"⟩], [], ⟨[], []⟩⟩).events = []
    ∧ (hourly_posting ⟨fun _ => false, fun _ => [], 0, "2026-01-01", Except.ok false⟩
        ⟨[⟨"/clips/a.mp4", "cap", some "tiktok", "t"⟩], [], ⟨[], []⟩⟩).state.poster
      = ⟨[], []⟩ :=
  C6_missing_video_dropped ⟨fun _ => false, fun _ => [], 0, "2026-01-01", Except.ok false⟩
    ⟨[], []⟩ [] ⟨"/clips/a.mp4", "cap", some "tiktok", "t"⟩ [] rfl

/-- C7: when the head clip's post attempt runs and `post_with_safety`
returns false, the cycle leaves that clip exactly once at the tail of the
queue, with unchanged contents, the other entries ahead of it in their
original order, and persists the queue; its occurrence count is unchanged
(no duplication, no loss). -/
theorem C7_failed_post_requeued_at_tail (env : HourlyEnv) (poster0 : PosterState)
    (qfile : List Clip) (clip : Clip) (rest : List Clip)
    (hvid : env.fileExists clip.video_path = true)
    (hacc : env.accounts clip.getPlatform ≠ [])
    (hcook : env.fileExists
        (chooseAccount env.chooseIdx (env.accounts clip.getPlatform)).cookies_file = true)
    (hfail : (post_with_safety poster0 env.today clip.getPlatform
        (chooseAccount env.chooseIdx (env.accounts clip.getPlatform)).username
        env.posterResult).1 = false) :
    (hourly_posting env ⟨clip :: rest, qfile, poster0⟩).state.clips_queue = rest ++ [clip]
    ∧ (hourly_posting env ⟨clip :: rest, qfile, poster0⟩).state.queue_file = rest ++ [clip]
    ∧ (hourly_posting env ⟨clip :: rest, qfile, poster0⟩).state.clips_queue.count clip
        = (clip :: rest).count clip := by
  refine ⟨?_, ?_, ?_⟩ <;>
    simp [hourly_posting, hvid, hacc, hcook, hfail, List.count_append, List.count_cons]

/-- C7 witness: a failing tiktok post on a one-entry queue re-queues the
clip at the tail. -/
theorem C7_failed_post_requeued_at_tail_witness :
    (hourly_posting
        ⟨fun _ => true, fun _ => [⟨"acct1", "cook"⟩], 0, "2026-01-01", Except.ok false⟩
        ⟨[⟨"/clips/a.mp4", "cap", some "tiktok", "t"⟩], [], ⟨[], []⟩⟩).state.clips_queue
      = [] ++ [⟨"/clips/a.mp4", "cap", some "tiktok", "t"⟩]
    ∧ (hourly_posting
        ⟨fun _ => true, fun _ => [⟨"acct1", "cook"⟩], 0, "2026-01-01", Except.ok false⟩
        ⟨[⟨"/clips/a.mp4", "cap", some "tiktok", "t"⟩], [], ⟨[], []⟩⟩).state.queue_file
      = [] ++ [⟨"/clips/a.mp4", "cap", some "tiktok", "t"⟩]
    ∧ (hourly_posting
        ⟨fun _ => true, fun _ => [⟨"acct1", "cook"⟩], 0, "2026-01-01", Except.ok false⟩
        ⟨[⟨"/clips/a.mp4", "cap", some "tiktok", "t"⟩], [],
          ⟨[], []⟩⟩).state.clips_queue.count ⟨"/clips/a.mp4", "cap", some "tiktok", "t"⟩
      = ([⟨"/clips/a.mp4", "cap", some "tiktok", "t"⟩] :
          List Clip).count ⟨"/clips/a.mp4", "cap", some "tiktok", "t"⟩ :=
  C7_failed_post_requeued_at_tail
    ⟨fun _ => true, fun _ => [⟨"acct1", "cook"⟩], 0, "2026-01-01", Except.ok false⟩
    ⟨[], []⟩ [] ⟨"/clips/a.mp4", "cap", some "tiktok", "t"⟩ []
    rfl (by decide) rfl (by decide)

/-- C8: when the head clip's video exists but its platform has no accounts
configured, one cycle re-appends the clip unchanged, so the queue holds
exactly the same entries (a permutation of the original, the popped clip
now at the tail), persists the queue, invokes no poster, and leaves the
poster state untouched. -/
theorem C8_no_accounts_requeued (env : HourlyEnv) (poster0 : PosterState)
    (qfile : List Clip) (clip : Clip) (rest : List Clip)
    (hvid : env.fileExists clip.video_path = true)
    (hacc : env.accounts clip.getPlatform = []) :
    (hourly_posting env ⟨clip :: rest, qfile, poster0⟩).state.clips_queue = rest ++ [clip]
    ∧ (hourly_posting env ⟨clip :: rest, qfile, poster0⟩).state.clips_queue.Perm
        (clip :: rest)
    ∧ (hourly_posting env ⟨clip :: rest, qfile, poster0⟩).state.queue_file = rest ++ [clip]
    ∧ (hourly_posting env ⟨clip :: rest, qfile, poster0⟩).attempted = false
    ∧ (hourly_posting env ⟨clip :: rest, qfile, poster0⟩).state.poster = poster0 := by
  refine ⟨?_, ?_, ?_, ?_, ?_⟩ <;>
    simp [hourly_posting, hvid, hacc, List.perm_append_singleton]

/-- C8 witness: a one-entry instagram queue with no instagram accounts
keeps its single entry and attempts nothing. -/
theorem C8_no_accounts_requeued_witness :
    (hourly_posting ⟨fun _ => true, fun _ => [], 0, "2026-01-01", Except.ok false⟩
        ⟨[⟨"/clips/a.mp4", "cap", some "instagram", "t"⟩], [],
          ⟨[], []⟩⟩).state.clips_queue
      = [] ++ [⟨"/clips/a.mp4", "cap", some "instagram", "t"⟩]
    ∧ (hourly_posting ⟨fun _ => true, fun _ => [], 0, "2026-01-01", Except.ok false⟩
        ⟨[⟨"/clips/a.mp4", "cap", some "instagram", "t"⟩], [],
          ⟨[], []⟩⟩).state.clips_queue.Perm
        [⟨"/clips/a.mp4", "cap", some "instagram", "t"⟩]
    ∧ (hourly_posting ⟨fun _ => true, fun _ => [], 0, "2026-01-01", Except.ok false⟩
        ⟨[⟨"/clips/a.mp4", "cap", some "instagram", "t"⟩], [],
          ⟨[], []⟩⟩).state.queue_file
      = [] ++ [⟨"/clips/a.mp4", "cap", some "instagram", "t"⟩]
    ∧ (hourly_posting ⟨fun _ => true, fun _ => [], 0, "2026-01-01", Except.ok false⟩
        ⟨[⟨"/clips/a.mp4", "cap", some "instagram", "t"⟩], [],
          ⟨[], []⟩⟩).attempted = false
    ∧ (hourly_posting ⟨fun _ => true, fun _ => [], 0, "2026-01-01", Except.ok false⟩
        ⟨[⟨"/clips/a.mp4", "cap", some "instagram", "t"⟩], [],
          ⟨[], []⟩⟩).state.poster = ⟨[], []⟩ :=
  C8_no_accounts_requeued
    ⟨fun _ => true, fun _ => [], 0, "2026-01-01", Except.ok false⟩
    ⟨[], []⟩ [] ⟨"/clips/a.mp4", "cap", some "instagram", "t"⟩ [] rfl rfl
